import Mathlib

/-!
Verification of the Jupyter workspace process supervisor
(`backend/app/services/jupyter_service.py` and
`backend/app/utils/workspace.py`).

The Python code is shallowly embedded: OS interactions (socket binds,
TCP connects, `subprocess.Popen`, `poll`, signals, waits) are modelled
as oracle fields of explicit environment records, consulted exactly at
the program points where the source consults the OS.  The module-level
process table `self.processes : Dict[int, subprocess.Popen]` is
modelled as an association list from workspace id to an abstract
process-handle id, with Python `dict` semantics (`__setitem__`
replaces in place, `__delitem__` removes, `in` tests key membership).
-/

namespace JupyterSupervisor

/-- The in-memory process table `self.processes`:
workspace id ↦ process handle id (`jupyter_service.py` line 14). -/
abbrev Table := List (Nat × Nat)

/-- Python `workspace_id in self.processes`. -/
def dictContains (d : Table) (k : Nat) : Bool :=
  d.any (fun kv => kv.1 == k)

/-- Python `self.processes[workspace_id]` (as an `Option`). -/
def dictGet (d : Table) (k : Nat) : Option Nat :=
  (d.find? (fun kv => kv.1 == k)).map (fun kv => kv.2)

/-- Python `self.processes[k] = v`: replace in place when the key is
present, append otherwise (insertion-ordered dict semantics). -/
def dictSet (d : Table) (k v : Nat) : Table :=
  if dictContains d k then
    d.map (fun kv => if kv.1 == k then (k, v) else kv)
  else
    d ++ [(k, v)]

/-- Python `del self.processes[k]` (every call site first checks
membership, so total removal is faithful). -/
def dictDel (d : Table) (k : Nat) : Table :=
  d.filter (fun kv => kv.1 != k)

/-- The keys of the table. -/
def tableKeys (d : Table) : List Nat := d.map Prod.fst

/-- Python's substring test `needle in haystack` on `List Char`. -/
def strContainsL (haystack needle : List Char) : Bool :=
  haystack.tails.any (fun t => needle.isPrefixOf t)

/-- Python's substring test `needle in haystack` on strings. -/
def pyIn (needle haystack : String) : Bool :=
  strContainsL haystack.data needle.data

/-- Python truthiness of `workspace.jupyter_port` (nullable int). -/
def truthyNat : Option Nat → Bool
  | none => false
  | some n => n != 0

/-- Python `s or d` for a nullable string `s`. -/
def orElseStr : Option String → String → String
  | none, d => d
  | some s, d => if s = "" then d else s

/-- Default `settings.jupyter_port_start` (`config.py` line 23). -/
def jupyter_port_start : Nat := 8888

/-- Default `settings.jupyter_port_end` (`config.py` line 24). -/
def jupyter_port_end : Nat := 9100

/-- `find_available_port` (`utils/workspace.py` lines 85-95): scan the
configured half-open range in order; for each candidate try to bind a
local socket (the `with` block releases it immediately); the first
successful bind wins; raise if the range is exhausted.  The bind probe
is the oracle `bindOk`; the range bounds are the configured settings,
passed explicitly. -/
def find_available_port (bindOk : Nat → Bool) (pstart pend : Nat) :
    Except String Nat :=
  match (List.range' pstart (pend - pstart)).find? bindOk with
  | some p => .ok p
  | none => .error "사용 가능한 포트를 찾을 수 없습니다."

/-- `generate_jupyter_token` (`utils/workspace.py` lines 97-99):
returns 32 bytes of OS randomness, url-safe encoded; the randomness is
an oracle argument.  `start_jupyter_lab` never calls it. -/
def generate_jupyter_token (token_urlsafe_32 : String) : String :=
  token_urlsafe_32

/-- The subset of the `Workspace` ORM record read by the supervisor
(`models/workspace.py` lines 22-24 and the fields used in
`jupyter_service.py`). -/
structure Workspace where
  id : Nat
  name : String
  path : String
  jupyter_port : Option Nat
  jupyter_status : String
  jupyter_token : Option String

/-- Oracle record for one call of `start_jupyter_lab`; each field is
the answer the OS gives at the corresponding program point of
`jupyter_service.py`. -/
structure StartEnv where
  /-- configured `settings.jupyter_port_start`. -/
  port_start : Nat
  /-- configured `settings.jupyter_port_end`. -/
  port_end : Nat
  /-- `process.poll() is None` for an already-tracked handle
  (line 278, reached from line 29 via `is_process_running`). -/
  poll_is_none : Nat → Bool
  /-- line 43: `connect_ex(('localhost', old_port)) == 0`;
  the result is only printed. -/
  old_port_in_use : Nat → Bool
  /-- line 90 (`utils/workspace.py`): the bind probe on a candidate
  port succeeds. -/
  bind_ok : Nat → Bool
  /-- line 69: result of `ensure_jupyter_kernel` (only printed). -/
  kernel_ready : Bool
  /-- line 139: `subprocess.Popen` — `.ok h` returns a fresh handle
  id `h`; `.error ()` raises `FileNotFoundError`. -/
  spawn : Except Unit Nat
  /-- line 155: `process.poll()` after the 8-second settle sleep;
  `some code` means the subprocess already exited. -/
  poll_after_settle : Option Int
  /-- lines 157-159: decoded stdout of the exited subprocess. -/
  stdout_msg : String
  /-- lines 157-159: decoded stderr of the exited subprocess. -/
  stderr_msg : String
  /-- line 193: the TCP connect probe at readiness attempt `i`
  (0-based, 15 attempts) succeeds. -/
  port_ready_at : Nat → Bool
  /-- line 18: `sys.executable`. -/
  python_exe : String

/-- The exceptions `start_jupyter_lab` can raise, by raise site. -/
inductive StartErr where
  /-- line 57: wrapper around any port-allocation failure. -/
  | noPort (msg : String)
  /-- line 224: the `FileNotFoundError` handler. -/
  | fileNotFound (msg : String)
  /-- line 231: the generic `except Exception` handler re-raise. -/
  | startFailed (msg : String)
deriving DecidableEq, Repr

/-- Decidable equality of `Except` results, for evaluating concrete
runs. -/
instance {ε α : Type} [DecidableEq ε] [DecidableEq α] :
    DecidableEq (Except ε α) := fun a b =>
  match a, b with
  | .ok x, .ok y =>
      if h : x = y then isTrue (by simp [h]) else isFalse (by simp [h])
  | .error x, .error y =>
      if h : x = y then isTrue (by simp [h]) else isFalse (by simp [h])
  | .ok _, .error _ => isFalse (by simp)
  | .error _, .ok _ => isFalse (by simp)

/-- Outcome of one `start_jupyter_lab` call: the returned pair or the
raised exception, the process table afterwards, and a ghost flag
recording whether `subprocess.Popen` created a process. -/
structure StartResult where
  result : Except StartErr (Nat × String)
  procs : Table
  spawned : Bool
deriving DecidableEq, Repr

/-- `is_process_running` (`jupyter_service.py` lines 272-278). -/
def is_process_running (poll_is_none : Nat → Bool) (procs : Table)
    (workspace_id : Nat) : Bool :=
  match dictGet procs workspace_id with
  | none => false
  | some p => poll_is_none p

/-- Lines 172-180: the list of matched failure classifications, in
source order, scanned over the captured output with Python's `in`. -/
def error_details (stdout_msg stderr_msg : String) (port : Nat) :
    List String :=
  (if pyIn "ModuleNotFoundError" stderr_msg then
    ["필요한 Python 모듈이 설치되지 않았습니다."] else []) ++
  (if !pyIn "jupyter" stderr_msg && !pyIn "jupyter" stdout_msg then
    ["Jupyter가 올바르게 설치되지 않았을 수 있습니다."] else []) ++
  (if pyIn "Permission denied" stderr_msg then
    ["권한 문제가 발생했습니다."] else []) ++
  (if pyIn "Port" stderr_msg && pyIn "already in use" stderr_msg then
    ["포트 " ++ toString port ++ "가 이미 사용 중입니다."] else [])

/-- Line 182: `" ".join(error_details) if error_details else
"알 수 없는 오류"`. -/
def error_summary (stdout_msg stderr_msg : String) (port : Nat) :
    String :=
  let d := error_details stdout_msg stderr_msg port
  if d.isEmpty then "알 수 없는 오류" else String.intercalate " " d

/-- Line 183: the message of the exception raised when the subprocess
exited during the settle delay. -/
def startup_fail_message (stdout_msg stderr_msg : String)
    (port : Nat) : String :=
  "Jupyter Lab 시작 실패: " ++ error_summary stdout_msg stderr_msg port ++
    "\n\nSTDOUT: " ++ (stdout_msg.take 500) ++
    "\nSTDERR: " ++ (stderr_msg.take 500)

/-- The `TypeError` text raised by line 53's call
`find_available_port(db_session)`: the imported function
(`utils/workspace.py` line 85) takes zero parameters, so the call
itself raises before any scan (CPython wording). -/
def arity_error_msg : String :=
  "find_available_port() takes 0 positional arguments but 1 was given"

/-- The `UnboundLocalError` text for line 192's use of `socket` when
the conditional `import socket` at line 41 never executed (the name
is function-local because of that import statement).  CPython ≤ 3.10
wording; newer interpreters phrase it differently, which no theorem
depends on. -/
def socket_unbound_msg : String :=
  "local variable 'socket' referenced before assignment"

/-- `start_jupyter_lab` from line 39 on (after the fast-path check).
Lines 39-49 probe the recorded old port (when truthy) with a result
that is only printed.  Line 53 then calls
`find_available_port(db_session)` — but the imported function
(`utils/workspace.py` line 85) takes **zero** parameters, so the call
raises `TypeError` unconditionally; the handler at lines 55-57 wraps
it as the no-port error and re-raises.  Every statement from line 60
on (directory creation, kernel check, spawn, settle, readiness,
classification) is therefore unreachable: no subprocess is ever
spawned and the table is left exactly as it was. -/
def start_fresh (env : StartEnv) (procs : Table) (w : Workspace) :
    StartResult :=
  -- lines 39-49: connect probe on the recorded old port, printed only
  let _oldBusy :=
    match w.jupyter_port with
    | some p => env.old_port_in_use p
    | none => false
  -- lines 52-57: find_available_port(db_session) → TypeError,
  -- caught at line 55, re-raised wrapped at line 57
  { result := .error (.noPort
      ("사용 가능한 포트를 찾을 수 없습니다: " ++ arity_error_msg)),
    procs := procs, spawned := false }

/-- `start_jupyter_lab` (`jupyter_service.py` lines 20-231): the
fast-path / state-mismatch check of lines 29-36, then `start_fresh`.
Prints are dropped. -/
def start_jupyter_lab (env : StartEnv) (procs : Table)
    (w : Workspace) : StartResult :=
  -- lines 29-36: idempotent fast path / state-mismatch cleanup
  if dictContains procs w.id &&
      is_process_running env.poll_is_none procs w.id then
    if truthyNat w.jupyter_port && (w.jupyter_status == "running") then
      -- lines 30-32
      { result := .ok (w.jupyter_port.getD 0,
          orElseStr w.jupyter_token "noauth"),
        procs := procs, spawned := false }
    else
      -- lines 34-36: delete the mismatched entry and fall through
      start_fresh env (dictDel procs w.id) w
  else
    start_fresh env procs w

/-- The post-fast-path start flow of lines 39-231 with exactly one
repair: the malformed call at line 53 is taken to invoke the
zero-argument scanner `find_available_port` it imports (as the spec's
step 4 describes and as the staged `start_fresh` cannot, since the
real call raises `TypeError` first).  Everything else is the staged
source, including the conditionally-bound `socket`: the
`import socket` at line 41 runs only when `workspace.jupyter_port` is
truthy, so line 192's readiness probe raises `UnboundLocalError` for
a falsy-port workspace, caught by the generic handler at line 225,
which deletes the entry and re-raises wrapped.  This model exists to
state properties of the otherwise-dead lines 58-231. -/
def start_fresh_intended (env : StartEnv) (procs : Table)
    (w : Workspace) : StartResult :=
  -- lines 39-49: when the recorded port is truthy, `import socket`
  -- runs (binding the function-local name) and the old port is
  -- probed (printed only)
  let socket_bound := truthyNat w.jupyter_port
  let _oldBusy :=
    match w.jupyter_port with
    | some p => env.old_port_in_use p
    | none => false
  -- lines 52-57, with the call repaired to the imported scanner
  match find_available_port env.bind_ok env.port_start env.port_end with
  | .error e =>
      { result := .error (.noPort ("사용 가능한 포트를 찾을 수 없습니다: " ++ e)),
        procs := procs, spawned := false }
  | .ok port =>
      -- line 60: `token = "simple123"` — never used afterwards
      -- lines 62-71: directory creation, kernel check (printed only)
      let _kernelReady := env.kernel_ready
      -- lines 74-136: command and environment construction
      -- lines 110-231: try / except
      match env.spawn with
      | .error _ =>
          -- lines 221-224: FileNotFoundError — no entry was added,
          -- and the handler does not touch the table
          { result := .error (.fileNotFound
              ("Python 실행 파일을 찾을 수 없습니다: " ++ env.python_exe)),
            procs := procs, spawned := false }
      | .ok handle =>
          -- line 148
          let procs1 := dictSet procs w.id handle
          -- lines 151-155: settle sleep, then poll
          match env.poll_after_settle with
          | some _ =>
              -- lines 156-183: immediate exit
              let procs2 :=
                if dictContains procs1 w.id then dictDel procs1 w.id
                else procs1
              let inner := startup_fail_message env.stdout_msg
                env.stderr_msg port
              -- the raise at line 183 is caught at line 225: the
              -- entry is deleted again (a no-op) and re-raised with
              -- a second wrapper prefix
              let procs3 :=
                if dictContains procs2 w.id then dictDel procs2 w.id
                else procs2
              { result := .error (.startFailed
                  ("Jupyter Lab 시작 실패: " ++ inner)),
                procs := procs3, spawned := true }
          | none =>
              if socket_bound then
                -- lines 190-202: bounded readiness poll (15
                -- attempts); lines 204-216 only log on failure
                let port_ready := (List.range 15).any env.port_ready_at
                if port_ready then
                  -- lines 218-219
                  { result := .ok (port, "noauth"),
                    procs := procs1, spawned := true }
                else
                  -- lines 204-216: degraded-readiness warning,
                  -- then the call still succeeds (line 219)
                  { result := .ok (port, "noauth"),
                    procs := procs1, spawned := true }
              else
                -- line 192: `socket.socket(...)` with `socket`
                -- never bound — UnboundLocalError, caught at
                -- line 225: entry deleted, re-raised wrapped
                { result := .error (.startFailed
                    ("Jupyter Lab 시작 실패: " ++ socket_unbound_msg)),
                  procs := dictDel procs1 w.id, spawned := true }

/-- The lines 29-36 wrapper over `start_fresh_intended`. -/
def start_jupyter_lab_intended (env : StartEnv) (procs : Table)
    (w : Workspace) : StartResult :=
  if dictContains procs w.id &&
      is_process_running env.poll_is_none procs w.id then
    if truthyNat w.jupyter_port && (w.jupyter_status == "running") then
      { result := .ok (w.jupyter_port.getD 0,
          orElseStr w.jupyter_token "noauth"),
        procs := procs, spawned := false }
    else
      start_fresh_intended env (dictDel procs w.id) w
  else
    start_fresh_intended env procs w

/-- Windows branch, lines 243-247: outcome of
`send_signal(CTRL_BREAK_EVENT)` followed by `wait(timeout=5)`. -/
inductive WinBreakR where
  /-- the wait returned: the process exited within 5 seconds. -/
  | exited
  /-- `TimeoutExpired` or `OSError`: caught locally at line 247,
  escalate. -/
  | escalate
  /-- any other exception: propagates to the handler at line 268. -/
  | raised (msg : String)
deriving DecidableEq, Repr

/-- Oracle record for one call of `stop_jupyter_lab`: the platform
switch and the process's reaction to each signal/wait of
lines 241-262. -/
structure StopEnv where
  /-- `os.name == 'nt'` (line 242). -/
  is_nt : Bool
  /-- POSIX line 257: `send_signal(SIGTERM)` raises with this
  message. -/
  sigterm_raises : Option String
  /-- POSIX line 259: `wait(timeout=10)` returns before the
  timeout. -/
  exits_within_10 : Bool
  /-- POSIX line 261: `send_signal(SIGKILL)` raises with this
  message. -/
  sigkill_raises : Option String
  /-- POSIX line 262: the killed process eventually exits, so the
  unbounded `wait()` returns. -/
  exits_after_kill : Bool
  /-- Windows lines 245-246. -/
  win_break : WinBreakR
  /-- Windows line 249: `terminate()` raises with this message. -/
  win_terminate_raises : Option String
  /-- Windows line 251: `wait(timeout=5)` returns before the
  timeout. -/
  win_exits_within_5 : Bool
  /-- Windows line 253: `kill()` raises with this message. -/
  win_kill_raises : Option String
  /-- Windows line 254: the killed process eventually exits, so the
  unbounded `wait()` returns. -/
  win_exits_after_kill : Bool

/-- Outcome of the signal/wait sequence of lines 241-262. -/
inductive TermR where
  /-- the sequence completed without an uncaught exception. -/
  | completed
  /-- an exception escaped to the handler at line 268. -/
  | raised (msg : String)
  /-- an unbounded `wait()` (line 254 or line 262) never returns. -/
  | hang
deriving DecidableEq, Repr

/-- The termination sequence of `stop_jupyter_lab`
(lines 241-262). -/
def termination_sequence (env : StopEnv) : TermR :=
  if env.is_nt then
    -- lines 243-254
    match env.win_break with
    | .exited => .completed
    | .raised msg => .raised msg
    | .escalate =>
        match env.win_terminate_raises with
        | some msg => .raised msg
        | none =>
            if env.win_exits_within_5 then .completed
            else
              match env.win_kill_raises with
              | some msg => .raised msg
              | none =>
                  if env.win_exits_after_kill then .completed
                  else .hang
  else
    -- lines 256-262
    match env.sigterm_raises with
    | some msg => .raised msg
    | none =>
        if env.exits_within_10 then .completed
        else
          match env.sigkill_raises with
          | some msg => .raised msg
          | none =>
              if env.exits_after_kill then .completed else .hang

/-- What a `stop_jupyter_lab` call does: return a boolean, or block
forever inside an unbounded `wait()`. -/
inductive StopOutcome where
  | ret (b : Bool)
  | hang
deriving DecidableEq, Repr

/-- Outcome and table after one `stop_jupyter_lab` call. -/
structure StopResult where
  outcome : StopOutcome
  procs : Table
deriving DecidableEq, Repr

/-- `stop_jupyter_lab` (`jupyter_service.py` lines 233-270): missing
entry returns `False` (lines 235-236); otherwise the termination
sequence runs inside `try`; on completion the entry is deleted and
`True` returned (lines 264-266); any exception is caught at line 268
and converted to `False` with the table untouched (lines 268-270). -/
def stop_jupyter_lab (env : StopEnv) (procs : Table)
    (workspace_id : Nat) : StopResult :=
  if !dictContains procs workspace_id then
    { outcome := .ret false, procs := procs }
  else
    match termination_sequence env with
    | .completed =>
        { outcome := .ret true, procs := dictDel procs workspace_id }
    | .raised _ => { outcome := .ret false, procs := procs }
    | .hang => { outcome := .hang, procs := procs }

/-- `cleanup_zombie_processes` (lines 288-296): collect the ids whose
process is no longer running, then delete each. -/
def cleanup_zombie_processes (poll_is_none : Nat → Bool)
    (procs : Table) : Table :=
  let to_remove :=
    (procs.filter
      (fun kv => !is_process_running poll_is_none procs kv.1)).map
      Prod.fst
  to_remove.foldl dictDel procs

/-- The process tables reachable in the staged program: the service
is constructed with an empty dict (line 14, instantiated once at
line 299), and the only code touching `self.processes` is
`start_jupyter_lab`, `stop_jupyter_lab` and
`cleanup_zombie_processes`, under arbitrary environments. -/
inductive ReachableTable : Table → Prop where
  | init : ReachableTable []
  | step_start (t : Table) (env : StartEnv) (w : Workspace) :
      ReachableTable t →
      ReachableTable (start_jupyter_lab env t w).procs
  | step_stop (t : Table) (env : StopEnv) (wsid : Nat) :
      ReachableTable t →
      ReachableTable (stop_jupyter_lab env t wsid).procs
  | step_cleanup (t : Table) (poll_is_none : Nat → Bool) :
      ReachableTable t →
      ReachableTable (cleanup_zombie_processes poll_is_none t)

/-! ### Concrete fixtures for closed evaluations -/

/-- A start environment in which port 9005 is the first free port,
spawning yields handle 101, the process survives the settle delay,
and the readiness probe never connects. -/
def envTolerant : StartEnv :=
  { port_start := 9000
    port_end := 9100
    poll_is_none := fun _ => true
    old_port_in_use := fun _ => false
    bind_ok := fun p => p == 9005
    kernel_ready := true
    spawn := .ok 101
    poll_after_settle := none
    stdout_msg := ""
    stderr_msg := ""
    port_ready_at := fun _ => false
    python_exe := "/usr/bin/python3" }

/-- Workspace 7 with no recorded port. -/
def wsFresh : Workspace :=
  { id := 7
    name := "ws7"
    path := "/tmp/ws7"
    jupyter_port := none
    jupyter_status := "stopped"
    jupyter_token := none }

/-- Workspace 7 with a recorded port but a non-running stored
status. -/
def wsMismatch : Workspace := { wsFresh with jupyter_port := some 9000 }

/-- Workspace 7 as the route records it after a successful start on
port 9005. -/
def wsRunning : Workspace :=
  { wsFresh with
    jupyter_port := some 9005
    jupyter_status := "running"
    jupyter_token := some "noauth" }

/-- A stop environment in which the process exits during the
10-second graceful wait. -/
def stopEnvClean : StopEnv :=
  { is_nt := false
    sigterm_raises := none
    exits_within_10 := true
    sigkill_raises := none
    exits_after_kill := true
    win_break := .exited
    win_terminate_raises := none
    win_exits_within_5 := true
    win_kill_raises := none
    win_exits_after_kill := true }

/-- `stopEnvClean` but the process survives SIGTERM's 10-second wait
and never exits even after SIGKILL. -/
def stopEnvHang : StopEnv :=
  { stopEnvClean with
    exits_within_10 := false
    exits_after_kill := false }

/-- `stopEnvClean` but the 10-second graceful wait times out and the
SIGKILLed process then exits. -/
def stopEnvEscalate : StopEnv :=
  { stopEnvClean with exits_within_10 := false }

/-! ### Dictionary lemmas -/

theorem bool_eq_false_of_ne_true {b : Bool} (h : ¬b = true) :
    b = false := by
  cases b
  · rfl
  · exact absurd rfl h

theorem dictContains_iff_mem_keys (d : Table) (k : Nat) :
    dictContains d k = true ↔ k ∈ tableKeys d := by
  simp only [dictContains, List.any_eq_true, tableKeys,
    List.mem_map, beq_iff_eq]

theorem dictGet_eq_none_of_not_contains (d : Table) (k : Nat)
    (h : dictContains d k = false) : dictGet d k = none := by
  induction d with
  | nil => rfl
  | cons kv tl ih =>
      simp only [dictContains, List.any_cons,
        Bool.or_eq_false_iff] at h
      have htl := ih (by simpa [dictContains] using h.2)
      simp only [dictGet] at htl ⊢
      rw [List.find?_cons_of_neg _ (by simp [h.1])]
      exact htl

/-- Keys are unchanged by the replace-in-place map of `dictSet`. -/
theorem tableKeys_map_subst (d : Table) (k v : Nat) :
    tableKeys (d.map (fun kv => if kv.1 == k then (k, v) else kv)) =
      tableKeys d := by
  induction d with
  | nil => rfl
  | cons kv tl ih =>
      simp only [tableKeys, List.map_cons] at ih ⊢
      have hhd : (if (kv.1 == k) = true then (k, v) else kv).1 =
          kv.1 := by
        by_cases hk : (kv.1 == k) = true
        · rw [if_pos hk]
          exact (beq_iff_eq.mp hk).symm
        · rw [if_neg hk]
      rw [hhd, ih]

theorem tableKeys_dictSet_of_contains (d : Table) (k v : Nat)
    (h : dictContains d k = true) :
    tableKeys (dictSet d k v) = tableKeys d := by
  simp only [dictSet, h, if_true]
  exact tableKeys_map_subst d k v

theorem tableKeys_dictSet_of_not_contains (d : Table) (k v : Nat)
    (h : dictContains d k = false) :
    tableKeys (dictSet d k v) = tableKeys d ++ [k] := by
  simp [dictSet, h, tableKeys]

theorem dictContains_dictSet_self (d : Table) (k v : Nat) :
    dictContains (dictSet d k v) k = true := by
  rw [dictContains_iff_mem_keys]
  by_cases h : dictContains d k = true
  · rw [tableKeys_dictSet_of_contains d k v h]
    exact (dictContains_iff_mem_keys d k).mp h
  · rw [tableKeys_dictSet_of_not_contains d k v
      (bool_eq_false_of_ne_true h)]
    simp

/-- Looking up `k` after the replace-in-place map of `dictSet`. -/
theorem dictGet_map_subst (d : Table) (k v : Nat)
    (h : dictContains d k = true) :
    dictGet (d.map (fun kv => if kv.1 == k then (k, v) else kv)) k =
      some v := by
  induction d with
  | nil => simp [dictContains] at h
  | cons kv tl ih =>
      by_cases hk : (kv.1 == k) = true
      · simp only [List.map_cons, if_pos hk, dictGet]
        rw [List.find?_cons_of_pos _ (by simp)]
        rfl
      · have hk' := bool_eq_false_of_ne_true hk
        have htl : dictContains tl k = true := by
          simp only [dictContains, List.any_cons, hk',
            Bool.false_or] at h
          exact h
        have := ih htl
        simp only [List.map_cons, if_neg hk, dictGet] at this ⊢
        rw [List.find?_cons_of_neg _ (by simp [hk'])]
        exact this

theorem dictGet_append_single (d : Table) (k v : Nat)
    (h : dictContains d k = false) :
    dictGet (d ++ [(k, v)]) k = some v := by
  induction d with
  | nil => simp [dictGet, List.find?]
  | cons kv tl ih =>
      simp only [dictContains, List.any_cons,
        Bool.or_eq_false_iff] at h
      have htl := ih (by simpa [dictContains] using h.2)
      simp only [List.cons_append, dictGet] at htl ⊢
      rw [List.find?_cons_of_neg _ (by simp [h.1])]
      exact htl

theorem dictGet_dictSet_self (d : Table) (k v : Nat) :
    dictGet (dictSet d k v) k = some v := by
  by_cases h : dictContains d k = true
  · simp only [dictSet, h, if_true]
    exact dictGet_map_subst d k v h
  · have h' := bool_eq_false_of_ne_true h
    simp only [dictSet, h', if_false]
    exact dictGet_append_single d k v h'

theorem dictContains_dictDel_self (d : Table) (k : Nat) :
    dictContains (dictDel d k) k = false := by
  simp only [dictDel, dictContains, List.any_eq_false]
  intro kv hmem
  have := List.of_mem_filter hmem
  simpa using this

theorem dictGet_dictDel_self (d : Table) (k : Nat) :
    dictGet (dictDel d k) k = none :=
  dictGet_eq_none_of_not_contains _ _ (dictContains_dictDel_self d k)

theorem nodup_tableKeys_dictSet (d : Table) (k v : Nat)
    (h : (tableKeys d).Nodup) :
    (tableKeys (dictSet d k v)).Nodup := by
  by_cases hc : dictContains d k = true
  · rw [tableKeys_dictSet_of_contains d k v hc]
    exact h
  · have hc' := bool_eq_false_of_ne_true hc
    rw [tableKeys_dictSet_of_not_contains d k v hc']
    have hk : k ∉ tableKeys d := by
      intro hmem
      rw [← dictContains_iff_mem_keys] at hmem
      rw [hc'] at hmem
      exact Bool.false_ne_true hmem
    exact List.Nodup.append h (List.nodup_singleton k)
      (by simpa [List.disjoint_singleton] using hk)

theorem nodup_tableKeys_dictDel (d : Table) (k : Nat)
    (h : (tableKeys d).Nodup) :
    (tableKeys (dictDel d k)).Nodup := by
  have hsub : List.Sublist (tableKeys (dictDel d k)) (tableKeys d) := by
    simpa [tableKeys] using (List.filter_sublist d).map Prod.fst
  exact h.sublist hsub

/-! ### `find?` over a port range: first-success characterization -/

theorem find?_range'_eq_some (p : Nat → Bool) :
    ∀ (n s q : Nat), (List.range' s n).find? p = some q →
      s ≤ q ∧ q < s + n ∧ p q = true ∧
      ∀ r, s ≤ r → r < q → p r = false
  | 0, s, q, h => by simp [List.range'] at h
  | n + 1, s, q, h => by
      have hr : List.range' s (n + 1) = s :: List.range' (s + 1) n :=
        rfl
      rw [hr] at h
      by_cases hs : p s = true
      · rw [List.find?_cons_of_pos _ hs] at h
        obtain rfl : s = q := by injection h
        exact ⟨le_refl s, by omega, hs, fun r h1 h2 => by omega⟩
      · have hs' := bool_eq_false_of_ne_true hs
        rw [List.find?_cons_of_neg _ (by simp [hs'])] at h
        obtain ⟨h1, h2, h3, h4⟩ := find?_range'_eq_some p n (s + 1) q h
        refine ⟨by omega, by omega, h3, ?_⟩
        intro r hr1 hr2
        rcases Nat.eq_or_lt_of_le hr1 with rfl | hlt
        · exact hs'
        · exact h4 r hlt hr2

theorem find?_range'_eq_none (p : Nat → Bool) (n s : Nat) :
    (List.range' s n).find? p = none ↔
      ∀ r, s ≤ r → r < s + n → p r = false := by
  rw [List.find?_eq_none]
  constructor
  · intro h r h1 h2
    have hmem : r ∈ List.range' s n :=
      List.mem_range'_1.mpr ⟨h1, h2⟩
    exact bool_eq_false_of_ne_true (h r hmem)
  · intro h x hmem
    obtain ⟨h1, h2⟩ := List.mem_range'_1.mp hmem
    simp [h x h1 h2]

/-! ### Port-allocation lemmas -/

theorem find_available_port_ok (bindOk : Nat → Bool)
    (pstart pend q : Nat)
    (h : find_available_port bindOk pstart pend = .ok q) :
    pstart ≤ q ∧ q < pend ∧ bindOk q = true ∧
      ∀ r, pstart ≤ r → r < q → bindOk r = false := by
  unfold find_available_port at h
  cases hf : (List.range' pstart (pend - pstart)).find? bindOk with
  | none => rw [hf] at h; exact absurd h (by simp)
  | some p =>
      rw [hf] at h
      obtain rfl : p = q := by injection h
      obtain ⟨h1, h2, h3, h4⟩ := find?_range'_eq_some bindOk _ _ _ hf
      exact ⟨h1, by omega, h3, h4⟩

theorem find_available_port_error_iff (bindOk : Nat → Bool)
    (pstart pend : Nat) :
    (∃ s, find_available_port bindOk pstart pend = .error s) ↔
      ∀ r, pstart ≤ r → r < pend → bindOk r = false := by
  unfold find_available_port
  cases hf : (List.range' pstart (pend - pstart)).find? bindOk with
  | none =>
      constructor
      · intro _ r h1 h2
        exact (find?_range'_eq_none bindOk _ _).mp hf r h1 (by omega)
      · intro _
        exact ⟨_, rfl⟩
  | some p =>
      constructor
      · rintro ⟨s, hs⟩
        exact absurd hs (by simp)
      · intro hall
        obtain ⟨h1, h2, h3, _⟩ := find?_range'_eq_some bindOk _ _ _ hf
        have := hall p h1 (by omega)
        rw [h3] at this
        simp at this

theorem find_available_port_error_msg (bindOk : Nat → Bool)
    (pstart pend : Nat) (s : String)
    (h : find_available_port bindOk pstart pend = .error s) :
    s = "사용 가능한 포트를 찾을 수 없습니다." := by
  unfold find_available_port at h
  cases hf : (List.range' pstart (pend - pstart)).find? bindOk with
  | none =>
      rw [hf] at h
      injection h with h
      exact h.symm
  | some p => rw [hf] at h; exact absurd h (by simp)

/-! ### Unfolding lemmas for the paths of `start_jupyter_lab` -/

/-- When the fast-path test at line 29 fails (no entry, or entry not
alive), `start_jupyter_lab` falls through to the post-fast-path code
with the table untouched. -/
theorem start_not_fast (env : StartEnv) (procs : Table)
    (w : Workspace)
    (h : (dictContains procs w.id &&
      is_process_running env.poll_is_none procs w.id) = false) :
    start_jupyter_lab env procs w = start_fresh env procs w := by
  unfold start_jupyter_lab
  rw [h]
  simp

/-- Lines 34-36: entry alive but record mismatched — the entry is
discarded and the call falls through. -/
theorem start_mismatch (env : StartEnv) (procs : Table)
    (w : Workspace)
    (h : (dictContains procs w.id &&
      is_process_running env.poll_is_none procs w.id) = true)
    (hmis : (truthyNat w.jupyter_port &&
      (w.jupyter_status == "running")) = false) :
    start_jupyter_lab env procs w =
      start_fresh env (dictDel procs w.id) w := by
  unfold start_jupyter_lab
  rw [h, hmis]
  simp

/-- Lines 29-32: the idempotent fast path. -/
theorem start_fast_path (env : StartEnv) (procs : Table)
    (w : Workspace)
    (h : (dictContains procs w.id &&
      is_process_running env.poll_is_none procs w.id) = true)
    (hok : (truthyNat w.jupyter_port &&
      (w.jupyter_status == "running")) = true) :
    start_jupyter_lab env procs w =
      { result := .ok (w.jupyter_port.getD 0,
          orElseStr w.jupyter_token "noauth"),
        procs := procs, spawned := false } := by
  unfold start_jupyter_lab
  rw [h, hok]
  simp

/-- Lines 39-57: past the fast path, the staged start always raises
the wrapped arity `TypeError` as the no-port error, leaving the table
unchanged and spawning nothing. -/
theorem start_fresh_eq (env : StartEnv) (procs : Table)
    (w : Workspace) :
    start_fresh env procs w =
      { result := .error (.noPort
          ("사용 가능한 포트를 찾을 수 없습니다: " ++ arity_error_msg)),
        procs := procs, spawned := false } := rfl

/-! Path lemmas for the repaired-allocation model
`start_fresh_intended` (the staged lines 58-231). -/

/-- Repaired lines 52-57: port-range exhaustion propagates as the
wrapped no-port error, leaving the table unchanged and spawning
nothing. -/
theorem intended_noPort (env : StartEnv) (procs : Table)
    (w : Workspace) (e : String)
    (h : find_available_port env.bind_ok env.port_start env.port_end =
      .error e) :
    start_fresh_intended env procs w =
      { result := .error (.noPort
          ("사용 가능한 포트를 찾을 수 없습니다: " ++ e)),
        procs := procs, spawned := false } := by
  unfold start_fresh_intended
  rw [h]

/-- Lines 139-219, success: spawn succeeds, the process survives the
settle delay, and `socket` was bound by the line-41 conditional import
(truthy recorded port) — the call returns `(port, "noauth")` whether
or not the readiness probe ever connected, with the handle
recorded. -/
theorem intended_success (env : StartEnv) (procs : Table)
    (w : Workspace) (port handle : Nat)
    (hfind : find_available_port env.bind_ok env.port_start
      env.port_end = .ok port)
    (hspawn : env.spawn = .ok handle)
    (hpoll : env.poll_after_settle = none)
    (hsock : truthyNat w.jupyter_port = true) :
    start_fresh_intended env procs w =
      { result := .ok (port, "noauth"),
        procs := dictSet procs w.id handle, spawned := true } := by
  unfold start_fresh_intended
  rw [hfind, hspawn, hpoll]
  simp only [hsock, if_true]
  by_cases hrdy : (List.range 15).any env.port_ready_at = true
  · simp [hrdy]
  · simp [bool_eq_false_of_ne_true hrdy]

/-- Lines 190-192 with a falsy recorded port: the line-41 `import
socket` never ran, so the readiness probe raises `UnboundLocalError`;
the handler at line 225 deletes the entry and re-raises wrapped. -/
theorem intended_unbound (env : StartEnv) (procs : Table)
    (w : Workspace) (port handle : Nat)
    (hfind : find_available_port env.bind_ok env.port_start
      env.port_end = .ok port)
    (hspawn : env.spawn = .ok handle)
    (hpoll : env.poll_after_settle = none)
    (hsock : truthyNat w.jupyter_port = false) :
    start_fresh_intended env procs w =
      { result := .error (.startFailed
          ("Jupyter Lab 시작 실패: " ++ socket_unbound_msg)),
        procs := dictDel (dictSet procs w.id handle) w.id,
        spawned := true } := by
  unfold start_fresh_intended
  rw [hfind, hspawn, hpoll]
  simp only [hsock, Bool.false_eq_true, if_false]

/-- Lines 155-183 and 225-231: the subprocess exits during the settle
delay — the entry is removed and the classified failure propagates,
re-wrapped by the generic handler. -/
theorem intended_crash (env : StartEnv) (procs : Table)
    (w : Workspace) (port handle : Nat) (code : Int)
    (hfind : find_available_port env.bind_ok env.port_start
      env.port_end = .ok port)
    (hspawn : env.spawn = .ok handle)
    (hpoll : env.poll_after_settle = some code) :
    start_fresh_intended env procs w =
      { result := .error (.startFailed ("Jupyter Lab 시작 실패: " ++
          startup_fail_message env.stdout_msg env.stderr_msg port)),
        procs := dictDel (dictSet procs w.id handle) w.id,
        spawned := true } := by
  unfold start_fresh_intended
  rw [hfind, hspawn, hpoll]
  simp only [dictContains_dictSet_self, if_true,
    dictContains_dictDel_self, Bool.false_eq_true, if_false]

/-- Lines 221-224: `subprocess.Popen` raises `FileNotFoundError` — no
entry was ever added and the handler leaves the table alone. -/
theorem intended_fileNotFound (env : StartEnv) (procs : Table)
    (w : Workspace) (port : Nat)
    (hfind : find_available_port env.bind_ok env.port_start
      env.port_end = .ok port)
    (hspawn : env.spawn = .error ()) :
    start_fresh_intended env procs w =
      { result := .error (.fileNotFound
          ("Python 실행 파일을 찾을 수 없습니다: " ++ env.python_exe)),
        procs := procs, spawned := false } := by
  unfold start_fresh_intended
  rw [hfind, hspawn]

/-- When the fast-path test fails, the intended-model wrapper falls
through with the table untouched. -/
theorem start_intended_not_fast (env : StartEnv) (procs : Table)
    (w : Workspace)
    (h : (dictContains procs w.id &&
      is_process_running env.poll_is_none procs w.id) = false) :
    start_jupyter_lab_intended env procs w =
      start_fresh_intended env procs w := by
  unfold start_jupyter_lab_intended
  rw [h]
  simp

/-! ### Unfolding lemmas for `stop_jupyter_lab` -/

/-- Lines 235-236. -/
theorem stop_no_entry (env : StopEnv) (procs : Table) (wsid : Nat)
    (h : dictContains procs wsid = false) :
    stop_jupyter_lab env procs wsid =
      { outcome := .ret false, procs := procs } := by
  unfold stop_jupyter_lab
  rw [h]
  simp

/-- Lines 264-266. -/
theorem stop_completed (env : StopEnv) (procs : Table) (wsid : Nat)
    (h : dictContains procs wsid = true)
    (ht : termination_sequence env = .completed) :
    stop_jupyter_lab env procs wsid =
      { outcome := .ret true, procs := dictDel procs wsid } := by
  unfold stop_jupyter_lab
  rw [h, ht]
  simp

/-- Lines 268-270. -/
theorem stop_raised (env : StopEnv) (procs : Table) (wsid : Nat)
    (msg : String) (h : dictContains procs wsid = true)
    (ht : termination_sequence env = .raised msg) :
    stop_jupyter_lab env procs wsid =
      { outcome := .ret false, procs := procs } := by
  unfold stop_jupyter_lab
  rw [h, ht]
  simp

/-- Line 262: the unbounded `wait()` never returns. -/
theorem stop_hang (env : StopEnv) (procs : Table) (wsid : Nat)
    (h : dictContains procs wsid = true)
    (ht : termination_sequence env = .hang) :
    stop_jupyter_lab env procs wsid =
      { outcome := .hang, procs := procs } := by
  unfold stop_jupyter_lab
  rw [h, ht]
  simp

/-- POSIX branch, graceful exit within the 10-second wait. -/
theorem term_posix_graceful (env : StopEnv) (h1 : env.is_nt = false)
    (h2 : env.sigterm_raises = none) (h3 : env.exits_within_10 = true) :
    termination_sequence env = .completed := by
  unfold termination_sequence
  rw [h1, h2, h3]
  simp

/-- POSIX branch, escalation: SIGTERM wait times out, SIGKILL is
sent, and the killed process eventually exits. -/
theorem term_posix_escalate (env : StopEnv) (h1 : env.is_nt = false)
    (h2 : env.sigterm_raises = none)
    (h3 : env.exits_within_10 = false)
    (h4 : env.sigkill_raises = none)
    (h5 : env.exits_after_kill = true) :
    termination_sequence env = .completed := by
  unfold termination_sequence
  rw [h1, h2, h3, h4, h5]
  simp

/-- On POSIX the sequence blocks forever exactly when SIGTERM sends
cleanly, the bounded wait times out, SIGKILL sends cleanly, and the
killed process never exits: the final `wait()` has no timeout. -/
theorem term_posix_hang_iff (env : StopEnv) (h1 : env.is_nt = false) :
    termination_sequence env = .hang ↔
      env.sigterm_raises = none ∧ env.exits_within_10 = false ∧
      env.sigkill_raises = none ∧ env.exits_after_kill = false := by
  unfold termination_sequence
  rw [h1]
  simp only [Bool.false_eq_true, if_false]
  cases h2 : env.sigterm_raises with
  | some msg => simp
  | none =>
      cases h3 : env.exits_within_10 with
      | true => simp
      | false =>
          cases h4 : env.sigkill_raises with
          | some msg => simp
          | none =>
              cases h5 : env.exits_after_kill with
              | true => simp
              | false => simp

/-! ### Table-shape case analysis and invariant preservation -/

/-- Every path of the staged `start_jupyter_lab` either leaves the
table unchanged (fast path; the unconditional line-57 raise) or
removes the mismatched entry at line 36: the insertion at line 148 is
never reached. -/
theorem start_procs_cases (env : StartEnv) (procs : Table)
    (w : Workspace) :
    (start_jupyter_lab env procs w).procs = procs ∨
    (start_jupyter_lab env procs w).procs = dictDel procs w.id := by
  unfold start_jupyter_lab
  split
  · split
    · exact Or.inl rfl
    · rw [start_fresh_eq]
      exact Or.inr rfl
  · rw [start_fresh_eq]
    exact Or.inl rfl

/-- The staged start never spawns: line 53 raises first. -/
theorem start_never_spawns (env : StartEnv) (procs : Table)
    (w : Workspace) :
    (start_jupyter_lab env procs w).spawned = false := by
  unfold start_jupyter_lab
  split
  · split
    · rfl
    · rw [start_fresh_eq]
  · rw [start_fresh_eq]

/-- Stale dead entry: the line-29 test already fails (process not
running), so nothing is reaped and the unconditional line-57 raise
leaves the entry in place. -/
theorem start_stale_entry_kept (env : StartEnv) (procs : Table)
    (w : Workspace)
    (hdead : is_process_running env.poll_is_none procs w.id = false) :
    start_jupyter_lab env procs w =
      { result := .error (.noPort
          ("사용 가능한 포트를 찾을 수 없습니다: " ++ arity_error_msg)),
        procs := procs, spawned := false } := by
  rw [start_not_fast env procs w (by rw [hdead, Bool.and_false])]
  exact start_fresh_eq env procs w

theorem nodup_tableKeys_start (env : StartEnv) (procs : Table)
    (w : Workspace) (h : (tableKeys procs).Nodup) :
    (tableKeys (start_jupyter_lab env procs w).procs).Nodup := by
  rcases start_procs_cases env procs w with heq | heq
  · rw [heq]; exact h
  · rw [heq]; exact nodup_tableKeys_dictDel procs w.id h

/-- Every path of `stop_jupyter_lab` leaves the table unchanged or
deletes the entry. -/
theorem stop_procs_cases (env : StopEnv) (procs : Table)
    (wsid : Nat) :
    (stop_jupyter_lab env procs wsid).procs = procs ∨
    (stop_jupyter_lab env procs wsid).procs = dictDel procs wsid := by
  unfold stop_jupyter_lab
  split
  · exact Or.inl rfl
  · split
    · exact Or.inr rfl
    · exact Or.inl rfl
    · exact Or.inl rfl

theorem nodup_tableKeys_stop (env : StopEnv) (procs : Table)
    (wsid : Nat) (h : (tableKeys procs).Nodup) :
    (tableKeys (stop_jupyter_lab env procs wsid).procs).Nodup := by
  unfold stop_jupyter_lab
  split
  · exact h
  · split
    · exact nodup_tableKeys_dictDel procs wsid h
    · exact h
    · exact h

theorem nodup_tableKeys_foldl_dictDel (l : List Nat) :
    ∀ d : Table, (tableKeys d).Nodup →
      (tableKeys (l.foldl dictDel d)).Nodup := by
  induction l with
  | nil => intro d h; exact h
  | cons k tl ih =>
      intro d h
      exact ih _ (nodup_tableKeys_dictDel d k h)

theorem nodup_tableKeys_cleanup (poll_is_none : Nat → Bool)
    (procs : Table) (h : (tableKeys procs).Nodup) :
    (tableKeys (cleanup_zombie_processes poll_is_none procs)).Nodup := by
  unfold cleanup_zombie_processes
  exact nodup_tableKeys_foldl_dictDel _ procs h

/-! ### Claim theorems -/

/-- C3: the allocation behavior the claim describes — in-order scan
of the configured half-open range, first bind-probe success wins,
no-port error iff the range is exhausted — is what the imported
scanner `find_available_port` implements (its spec is proved in
`find_available_port_ok` / `find_available_port_error_iff`), and is
clearly the intent; but the staged start never invokes it: line 53
passes `db_session` to the zero-argument function, so the call raises
`TypeError` unconditionally and line 57 wraps it as the no-port
error.  At the concrete input below the probe reports port 9005 free
(the scanner would return it), yet start raises the no-port error
carrying the wrapped arity message — not the scan-exhaustion
message — and never scans. -/
theorem C3_allocation_code_bug :
    find_available_port envTolerant.bind_ok envTolerant.port_start
      envTolerant.port_end = .ok 9005 ∧
    start_jupyter_lab envTolerant [] wsFresh =
      { result := .error (.noPort
          ("사용 가능한 포트를 찾을 수 없습니다: " ++ arity_error_msg)),
        procs := [], spawned := false } ∧
    ("사용 가능한 포트를 찾을 수 없습니다: " ++ arity_error_msg) ≠
      ("사용 가능한 포트를 찾을 수 없습니다: " ++
        "사용 가능한 포트를 찾을 수 없습니다.") := by
  refine ⟨by decide, by decide, by decide⟩

/-- C5: the tolerant-success policy of lines 204-219 (the inline
comments there mark the degraded-readiness case as success) is not
what the staged program does.  (1) The staged start raises the wrapped
arity `TypeError` before any spawn, so the settle/readiness phase is
unreachable.  (2) Even with line 53 repaired, a workspace with a
falsy recorded port raises `UnboundLocalError` at line 192 (`socket`
is bound only by the conditional import at line 41): the entry is
deleted and start raises instead of returning success.  (3) The
tolerant-success return of line 219 is reached only for a workspace
whose recorded port was truthy. -/
theorem C5_tolerant_success_code_bug :
    start_jupyter_lab envTolerant [] wsFresh =
      { result := .error (.noPort
          ("사용 가능한 포트를 찾을 수 없습니다: " ++ arity_error_msg)),
        procs := [], spawned := false } ∧
    start_jupyter_lab_intended envTolerant [] wsFresh =
      { result := .error (.startFailed
          ("Jupyter Lab 시작 실패: " ++ socket_unbound_msg)),
        procs := [], spawned := true } ∧
    start_jupyter_lab_intended envTolerant [] wsMismatch =
      { result := .ok (9005, "noauth"), procs := [(7, 101)],
        spawned := true } := by
  refine ⟨by decide, by decide, by decide⟩

/-- The token returned by any `start_fresh_intended` run that spawned
a process and succeeded is the constant `"noauth"` (line 219). -/
theorem intended_token (env : StartEnv) (procs : Table)
    (w : Workspace) (p : Nat) (tok : String)
    (hsp : (start_fresh_intended env procs w).spawned = true)
    (hok : (start_fresh_intended env procs w).result = .ok (p, tok)) :
    tok = "noauth" := by
  cases hfind : find_available_port env.bind_ok env.port_start
      env.port_end with
  | error e =>
      rw [intended_noPort env procs w e hfind] at hsp
      simp at hsp
  | ok port =>
      cases hspawn : env.spawn with
      | error u =>
          cases u
          rw [intended_fileNotFound env procs w port hfind
            hspawn] at hsp
          simp at hsp
      | ok handle =>
          cases hpoll : env.poll_after_settle with
          | none =>
              cases hsock : truthyNat w.jupyter_port with
              | true =>
                  rw [intended_success env procs w port handle hfind
                    hspawn hpoll hsock] at hok
                  simp only [Except.ok.injEq, Prod.mk.injEq] at hok
                  exact hok.2.symm
              | false =>
                  rw [intended_unbound env procs w port handle hfind
                    hspawn hpoll hsock] at hok
                  simp at hok
          | some code =>
              rw [intended_crash env procs w port handle code
                hfind hspawn hpoll] at hok
              simp at hok

/-- C10: every successful start that actually spawned a subprocess
returns the fixed constant token `"noauth"`, independent of the
workspace and of `generate_jupyter_token` (never called by start);
hence any two spawning successful starts return equal tokens.  The
spawning-success return (line 219) lies in the staged-but-dead code
after line 57, so the theorem quantifies over the repaired-allocation
model `start_jupyter_lab_intended`, whose only spawning success is
that line; the staged `start_jupyter_lab` has no spawning successes
at all, so the claim holds of the staged program a fortiori. -/
theorem C10_constant_token :
    (∀ (env : StartEnv) (procs : Table) (w : Workspace) (p : Nat)
      (tok : String),
      (start_jupyter_lab_intended env procs w).spawned = true →
      (start_jupyter_lab_intended env procs w).result = .ok (p, tok) →
      tok = "noauth") ∧
    (∀ (env1 env2 : StartEnv) (procs1 procs2 : Table)
      (w1 w2 : Workspace) (p1 p2 : Nat) (t1 t2 : String),
      (start_jupyter_lab_intended env1 procs1 w1).spawned = true →
      (start_jupyter_lab_intended env1 procs1 w1).result =
        .ok (p1, t1) →
      (start_jupyter_lab_intended env2 procs2 w2).spawned = true →
      (start_jupyter_lab_intended env2 procs2 w2).result =
        .ok (p2, t2) →
      t1 = t2) := by
  have main : ∀ (env : StartEnv) (procs : Table) (w : Workspace)
      (p : Nat) (tok : String),
      (start_jupyter_lab_intended env procs w).spawned = true →
      (start_jupyter_lab_intended env procs w).result = .ok (p, tok) →
      tok = "noauth" := by
    intro env procs w p tok hsp hok
    unfold start_jupyter_lab_intended at hsp hok
    by_cases hfast : (dictContains procs w.id &&
        is_process_running env.poll_is_none procs w.id) = true
    · rw [if_pos hfast] at hsp hok
      by_cases hrec : (truthyNat w.jupyter_port &&
          (w.jupyter_status == "running")) = true
      · rw [if_pos hrec] at hsp
        simp at hsp
      · rw [if_neg hrec] at hsp hok
        exact intended_token env _ w p tok hsp hok
    · rw [if_neg hfast] at hsp hok
      exact intended_token env procs w p tok hsp hok
  refine ⟨main, ?_⟩
  intro env1 env2 procs1 procs2 w1 w2 p1 p2 t1 t2 h1 h2 h3 h4
  rw [main env1 procs1 w1 p1 t1 h1 h2,
    main env2 procs2 w2 p2 t2 h3 h4]

/-- C10 witness: two concrete spawning runs (different workspaces
with truthy recorded ports, different free ports) both return the
token `"noauth"`. -/
theorem C10_constant_token_witness :
    ("noauth" : String) = "noauth" :=
  C10_constant_token.2 envTolerant
    { envTolerant with bind_ok := (fun p => p == 9007), spawn := .ok 102 }
    [] [] wsMismatch { wsMismatch with id := 8 } 9005 9007
    "noauth" "noauth"
    (by decide) (by decide) (by decide) (by decide)

/-- C6: the failure reason is built by scanning the captured output
for the known indicators in source order (missing module, missing
base toolkit, permission denied, port in use, otherwise unknown): a
module-not-found string puts the "not installed" message among the
matched reasons, a port-in-use string puts a message naming the
conflicting port among them, every matched reason is concatenated
(space-joined) into the summary, and with no match the summary is the
unknown-failure message, embedded with the truncated raw output into
the raised message. -/
theorem C6_failure_classification :
    (∀ (stdout_msg stderr_msg : String) (port : Nat),
      pyIn "ModuleNotFoundError" stderr_msg = true →
      "필요한 Python 모듈이 설치되지 않았습니다." ∈
        error_details stdout_msg stderr_msg port) ∧
    (∀ (stdout_msg stderr_msg : String) (port : Nat),
      (pyIn "Port" stderr_msg && pyIn "already in use" stderr_msg) =
        true →
      ("포트 " ++ toString port ++ "가 이미 사용 중입니다.") ∈
        error_details stdout_msg stderr_msg port) ∧
    (∀ (stdout_msg stderr_msg : String) (port : Nat),
      error_details stdout_msg stderr_msg port ≠ [] →
      error_summary stdout_msg stderr_msg port =
        String.intercalate " "
          (error_details stdout_msg stderr_msg port)) ∧
    (∀ (stdout_msg stderr_msg : String) (port : Nat),
      error_details stdout_msg stderr_msg port = [] →
      error_summary stdout_msg stderr_msg port = "알 수 없는 오류") ∧
    (∀ (stdout_msg stderr_msg : String) (port : Nat),
      startup_fail_message stdout_msg stderr_msg port =
        "Jupyter Lab 시작 실패: " ++
          error_summary stdout_msg stderr_msg port ++
          "\n\nSTDOUT: " ++ (stdout_msg.take 500) ++
          "\nSTDERR: " ++ (stderr_msg.take 500)) := by
  refine ⟨?_, ?_, ?_, ?_, fun _ _ _ => rfl⟩
  · intro stdout_msg stderr_msg port h
    simp [error_details, h]
  · intro stdout_msg stderr_msg port h
    rw [Bool.and_eq_true] at h
    simp [error_details, h.1, h.2]
  · intro stdout_msg stderr_msg port h
    unfold error_summary
    rw [if_neg (by simpa [List.isEmpty_iff] using h)]
  · intro stdout_msg stderr_msg port h
    unfold error_summary
    rw [if_pos (by simpa [List.isEmpty_iff] using h)]

/-- C6 witness: synthetic stderr containing a module-not-found string
classifies as "not installed", and a port-in-use stderr names port
9010 in the matched reasons; both appear space-joined in the
summary. -/
theorem C6_failure_classification_witness :
    "필요한 Python 모듈이 설치되지 않았습니다." ∈
      error_details "" "ModuleNotFoundError: no module named 'foo'"
        9010 ∧
    ("포트 " ++ toString 9010 ++ "가 이미 사용 중입니다.") ∈
      error_details "jupyter log" "Port 9010 is already in use" 9010 ∧
    error_summary "" "ModuleNotFoundError: no module named 'foo'"
        9010 =
      String.intercalate " "
        (error_details "" "ModuleNotFoundError: no module named 'foo'"
          9010) := by
  refine ⟨?_, ?_, ?_⟩
  · exact C6_failure_classification.1 ""
      "ModuleNotFoundError: no module named 'foo'" 9010 (by decide)
  · exact C6_failure_classification.2.1 "jupyter log"
      "Port 9010 is already in use" 9010 (by decide)
  · exact C6_failure_classification.2.2.1 ""
      "ModuleNotFoundError: no module named 'foo'" 9010 (by decide)

/-- C2: stop on an untracked workspace returns `False` without
raising; for a tracked workspace whose termination sequence completes
cleanly the first stop returns `True` (removing the entry) and the
immediately repeated stop returns `False`; and any exception raised
inside the termination sequence is caught and converted into a
`False` return with the table untouched, never propagated. -/
theorem C2_stop_semantics :
    (∀ (env : StopEnv) (procs : Table) (wsid : Nat),
      dictContains procs wsid = false →
      stop_jupyter_lab env procs wsid =
        { outcome := .ret false, procs := procs }) ∧
    (∀ (env1 env2 : StopEnv) (procs : Table) (wsid : Nat),
      dictContains procs wsid = true →
      termination_sequence env1 = .completed →
      stop_jupyter_lab env1 procs wsid =
        { outcome := .ret true, procs := dictDel procs wsid } ∧
      stop_jupyter_lab env2 (dictDel procs wsid) wsid =
        { outcome := .ret false, procs := dictDel procs wsid }) ∧
    (∀ (env : StopEnv) (procs : Table) (wsid : Nat) (msg : String),
      termination_sequence env = .raised msg →
      stop_jupyter_lab env procs wsid =
        { outcome := .ret false, procs := procs }) := by
  refine ⟨stop_no_entry, ?_, ?_⟩
  · intro env1 env2 procs wsid hc ht
    refine ⟨stop_completed env1 procs wsid hc ht, ?_⟩
    exact stop_no_entry env2 (dictDel procs wsid) wsid
      (dictContains_dictDel_self procs wsid)
  · intro env procs wsid msg ht
    by_cases hc : dictContains procs wsid = true
    · exact stop_raised env procs wsid msg hc ht
    · exact stop_no_entry env procs wsid (bool_eq_false_of_ne_true hc)

/-- C2 witness: a concrete clean-termination run — stop of untracked
workspace 9 returns `False`; stop of tracked workspace 7 returns
`True` then `False`; a SIGTERM failure returns `False` with the
entry kept. -/
theorem C2_stop_semantics_witness :
    stop_jupyter_lab stopEnvClean [(7, 100)] 9 =
      { outcome := .ret false, procs := [(7, 100)] } ∧
    (stop_jupyter_lab stopEnvClean [(7, 100)] 7 =
      { outcome := .ret true, procs := dictDel [(7, 100)] 7 } ∧
     stop_jupyter_lab stopEnvClean (dictDel [(7, 100)] 7) 7 =
      { outcome := .ret false, procs := dictDel [(7, 100)] 7 }) ∧
    stop_jupyter_lab
        { stopEnvClean with sigterm_raises := some "EPERM" }
        [(7, 100)] 7 =
      { outcome := .ret false, procs := [(7, 100)] } := by
  refine ⟨?_, ?_, ?_⟩
  · exact C2_stop_semantics.1 stopEnvClean [(7, 100)] 9 (by decide)
  · exact C2_stop_semantics.2.1 stopEnvClean stopEnvClean [(7, 100)]
      7 (by decide) (by decide)
  · exact C2_stop_semantics.2.2
      { stopEnvClean with sigterm_raises := some "EPERM" }
      [(7, 100)] 7 "EPERM" (by decide)

/-- C9: every supervisor operation — start, stop, liveness check
(read-only), and zombie cleanup — preserves the invariant that the
process table holds at most one handle per workspace id (its key list
stays duplicate-free), and a start over an existing key replaces the
handle in place: the key list is unchanged, so no second handle is
ever appended for the same workspace. -/
theorem C9_at_most_one_handle :
    (∀ (env : StartEnv) (procs : Table) (w : Workspace),
      (tableKeys procs).Nodup →
      (tableKeys (start_jupyter_lab env procs w).procs).Nodup) ∧
    (∀ (env : StopEnv) (procs : Table) (wsid : Nat),
      (tableKeys procs).Nodup →
      (tableKeys (stop_jupyter_lab env procs wsid).procs).Nodup) ∧
    (∀ (poll_is_none : Nat → Bool) (procs : Table),
      (tableKeys procs).Nodup →
      (tableKeys (cleanup_zombie_processes poll_is_none
        procs)).Nodup) ∧
    (∀ (procs : Table) (k v : Nat),
      dictContains procs k = true →
      tableKeys (dictSet procs k v) = tableKeys procs) :=
  ⟨nodup_tableKeys_start, nodup_tableKeys_stop,
    nodup_tableKeys_cleanup, tableKeys_dictSet_of_contains⟩

/-- C9 witness: a concrete start over tracked workspace 7 (dead
handle 100 replaced after a fresh spawn) keeps the key list
duplicate-free, and a concrete in-place `dictSet` leaves the key list
unchanged. -/
theorem C9_at_most_one_handle_witness :
    (tableKeys (start_jupyter_lab
      { envTolerant with poll_is_none := (fun _ => false) }
      [(7, 100), (8, 90)] wsFresh).procs).Nodup ∧
    tableKeys (dictSet [(7, 100), (8, 90)] 7 101) =
      tableKeys [(7, 100), (8, 90)] := by
  constructor
  · exact C9_at_most_one_handle.1
      { envTolerant with poll_is_none := (fun _ => false) }
      [(7, 100), (8, 90)] wsFresh (by decide)
  · exact C9_at_most_one_handle.2.2.2 [(7, 100), (8, 90)] 7 101
      (by decide)

/-- C1 counterexample: workspace 7 has a tracked, alive process
(handle 100) but its stored record says `(port 9000, status
"stopped")`.  The claim says this start returns the known port 9000
via the fast path with no new subprocess; the staged code instead
deletes the entry at line 36, falls through, and raises the wrapped
no-port `TypeError` error at line 57 — returning no port at all and
losing the entry. -/
theorem C1_counterexample :
    start_jupyter_lab envTolerant [(7, 100)] wsMismatch =
      { result := .error (.noPort
          ("사용 가능한 포트를 찾을 수 없습니다: " ++ arity_error_msg)),
        procs := [], spawned := false } ∧
    dictContains [(7, 100)] wsMismatch.id = true ∧
    is_process_running envTolerant.poll_is_none [(7, 100)]
      wsMismatch.id = true ∧
    wsMismatch.jupyter_port = some 9000 := by
  refine ⟨by decide, by decide, by decide, by decide⟩

/-- C1 (amended): the fast path requires, besides a tracked alive
process, that the stored record holds a non-null port with status
"running"; under those conditions start returns the recorded port
with no spawn and an untouched table, and two starts in immediate
sequence (the second running on the table the first returned) yield
the same port both times and spawn nothing.  When the record does not
show a running port, the staged start instead deletes the entry and
raises the wrapped no-port error. -/
theorem C1_start_idempotent :
    (∀ (env : StartEnv) (procs : Table) (w : Workspace) (p : Nat),
      dictContains procs w.id = true →
      is_process_running env.poll_is_none procs w.id = true →
      w.jupyter_port = some p → p ≠ 0 →
      w.jupyter_status = "running" →
      start_jupyter_lab env procs w =
        { result := .ok (p, orElseStr w.jupyter_token "noauth"),
          procs := procs, spawned := false }) ∧
    (∀ (env1 env2 : StartEnv) (procs : Table) (w : Workspace)
      (p : Nat),
      dictContains procs w.id = true →
      is_process_running env1.poll_is_none procs w.id = true →
      is_process_running env2.poll_is_none procs w.id = true →
      w.jupyter_port = some p → p ≠ 0 →
      w.jupyter_status = "running" →
      start_jupyter_lab env1 procs w =
        { result := .ok (p, orElseStr w.jupyter_token "noauth"),
          procs := procs, spawned := false } ∧
      start_jupyter_lab env2 (start_jupyter_lab env1 procs w).procs
          w =
        { result := .ok (p, orElseStr w.jupyter_token "noauth"),
          procs := procs, spawned := false }) := by
  have fast : ∀ (env : StartEnv) (procs : Table) (w : Workspace)
      (p : Nat),
      dictContains procs w.id = true →
      is_process_running env.poll_is_none procs w.id = true →
      w.jupyter_port = some p → p ≠ 0 →
      w.jupyter_status = "running" →
      start_jupyter_lab env procs w =
        { result := .ok (p, orElseStr w.jupyter_token "noauth"),
          procs := procs, spawned := false } := by
    intro env procs w p hc hr hp hp0 hs
    have hcond : (dictContains procs w.id &&
        is_process_running env.poll_is_none procs w.id) = true := by
      rw [hc, hr]
      rfl
    have hrec : (truthyNat w.jupyter_port &&
        (w.jupyter_status == "running")) = true := by
      rw [hp, hs]
      simp [truthyNat, hp0]
    rw [start_fast_path env procs w hcond hrec, hp]
    rfl
  refine ⟨fast, ?_⟩
  intro env1 env2 procs w p hc hr1 hr2 hp hp0 hs
  have h1 := fast env1 procs w p hc hr1 hp hp0 hs
  refine ⟨h1, ?_⟩
  rw [h1]
  exact fast env2 procs w p hc hr2 hp hp0 hs

/-- C1 witness: workspace 7 tracked and alive with record
`(port 9005, status "running")` — both consecutive starts return
port 9005 with no spawn and the table untouched. -/
theorem C1_start_idempotent_witness :
    start_jupyter_lab envTolerant [(7, 100)] wsRunning =
      { result := .ok (9005, orElseStr wsRunning.jupyter_token
          "noauth"),
        procs := [(7, 100)], spawned := false } ∧
    start_jupyter_lab envTolerant
        (start_jupyter_lab envTolerant [(7, 100)] wsRunning).procs
        wsRunning =
      { result := .ok (9005, orElseStr wsRunning.jupyter_token
          "noauth"),
        procs := [(7, 100)], spawned := false } :=
  C1_start_idempotent.2 envTolerant envTolerant [(7, 100)] wsRunning
    9005 (by decide) (by decide) (by decide) (by decide) (by decide)
    (by decide)

/-- C4 counterexample: workspace 7 has a stale entry whose process
is dead (the reap at line 36 does not fire because the liveness check
at line 29 already failed), and start raises the wrapped no-port
`TypeError` error at line 57 before any spawn — with the stale entry
still in the table after the raise, refuting "no call of start that
raises leaves an entry in the table". -/
theorem C4_counterexample :
    start_jupyter_lab
        { envTolerant with poll_is_none := (fun _ => false) }
        [(7, 100)] wsFresh =
      { result := .error (.noPort
          ("사용 가능한 포트를 찾을 수 없습니다: " ++ arity_error_msg)),
        procs := [(7, 100)], spawned := false } ∧
    dictGet [(7, 100)] wsFresh.id = some 100 := by
  refine ⟨by decide, by decide⟩

/-- C4 (amended): no start call ever fails after a spawned
subprocess, because the staged start never spawns — every call past
the fast path raises the wrapped no-port error at line 57, so the
post-spawn cleanup of lines 167-169 and 229-230 is dead code; a
raising start leaves the table unchanged except for the
mismatch-path deletion of line 36, and in particular a stale dead
entry survives the raise. -/
theorem C4_no_spawn_cleanup :
    (∀ (env : StartEnv) (procs : Table) (w : Workspace),
      (start_jupyter_lab env procs w).spawned = false) ∧
    (∀ (env : StartEnv) (procs : Table) (w : Workspace),
      (start_jupyter_lab env procs w).procs = procs ∨
      (start_jupyter_lab env procs w).procs = dictDel procs w.id) ∧
    (∀ (env : StartEnv) (procs : Table) (w : Workspace),
      is_process_running env.poll_is_none procs w.id = false →
      start_jupyter_lab env procs w =
        { result := .error (.noPort
            ("사용 가능한 포트를 찾을 수 없습니다: " ++ arity_error_msg)),
          procs := procs, spawned := false }) :=
  ⟨start_never_spawns, start_procs_cases, start_stale_entry_kept⟩

/-- C4 witness: a concrete dead-entry start — workspace 3 keeps its
stale handle 55 through the raising call. -/
theorem C4_no_spawn_cleanup_witness :
    start_jupyter_lab
        { envTolerant with poll_is_none := (fun _ => false) }
        [(3, 55)] { wsFresh with id := 3 } =
      { result := .error (.noPort
          ("사용 가능한 포트를 찾을 수 없습니다: " ++ arity_error_msg)),
        procs := [(3, 55)], spawned := false } :=
  C4_no_spawn_cleanup.2.2
    { envTolerant with poll_is_none := (fun _ => false) }
    [(3, 55)] { wsFresh with id := 3 } (by decide)

/-- C7 counterexample: with a tracked workspace 7 on POSIX where the
process survives the 10-second SIGTERM wait and never exits after
SIGKILL, the `wait()` at line 262 has no timeout: the stop call
blocks forever and the entry is never removed — refuting "waits
again with a second bounded timeout … removes the entry regardless …
never waits forever". -/
theorem C7_counterexample :
    termination_sequence stopEnvHang = .hang ∧
    stop_jupyter_lab stopEnvHang [(7, 100)] 7 =
      { outcome := .hang, procs := [(7, 100)] } := by
  refine ⟨by decide, by decide⟩

/-- C7 (amended): when an entry exists, stop sends SIGTERM and waits
with a bounded 10-second timeout; on timeout it escalates to SIGKILL
and then waits again with no timeout; whenever the sequence completes
the entry is removed and `True` returned; on POSIX the sequence
blocks forever exactly when both waits are reached and the SIGKILLed
process never exits — so it terminates provided a SIGKILLed process
eventually exits. -/
theorem C7_stop_escalation :
    (∀ env : StopEnv, env.is_nt = false →
      env.sigterm_raises = none → env.exits_within_10 = true →
      termination_sequence env = .completed) ∧
    (∀ env : StopEnv, env.is_nt = false →
      env.sigterm_raises = none → env.exits_within_10 = false →
      env.sigkill_raises = none → env.exits_after_kill = true →
      termination_sequence env = .completed) ∧
    (∀ (env : StopEnv) (procs : Table) (wsid : Nat),
      dictContains procs wsid = true →
      termination_sequence env = .completed →
      stop_jupyter_lab env procs wsid =
        { outcome := .ret true, procs := dictDel procs wsid }) ∧
    (∀ env : StopEnv, env.is_nt = false →
      (termination_sequence env = .hang ↔
        env.sigterm_raises = none ∧ env.exits_within_10 = false ∧
        env.sigkill_raises = none ∧ env.exits_after_kill = false)) ∧
    (∀ (env : StopEnv) (procs : Table) (wsid : Nat),
      env.is_nt = false → env.exits_after_kill = true →
      (stop_jupyter_lab env procs wsid).outcome ≠ .hang) := by
  refine ⟨term_posix_graceful, term_posix_escalate, stop_completed,
    term_posix_hang_iff, ?_⟩
  intro env procs wsid hnt hkillexit
  by_cases hc : dictContains procs wsid = true
  · cases hterm : termination_sequence env with
    | completed =>
        rw [stop_completed env procs wsid hc hterm]
        simp
    | raised msg =>
        rw [stop_raised env procs wsid msg hc hterm]
        simp
    | hang =>
        obtain ⟨_, _, _, hfalse⟩ :=
          (term_posix_hang_iff env hnt).mp hterm
        rw [hkillexit] at hfalse
        exact absurd hfalse (by simp)
  · rw [stop_no_entry env procs wsid (bool_eq_false_of_ne_true hc)]
    simp

/-- C7 witness: a concrete POSIX escalation run — the graceful wait
times out, SIGKILL is sent, the killed process exits: the sequence
completes, the entry is removed, `True` is returned, and the call
does not block. -/
theorem C7_stop_escalation_witness :
    termination_sequence stopEnvEscalate = .completed ∧
    stop_jupyter_lab stopEnvEscalate [(7, 100)] 7 =
      { outcome := .ret true, procs := dictDel [(7, 100)] 7 } ∧
    (stop_jupyter_lab stopEnvEscalate [(7, 100)] 7).outcome ≠
      .hang := by
  have h1 : termination_sequence stopEnvEscalate = .completed :=
    C7_stop_escalation.2.1 stopEnvEscalate (by decide) (by decide)
      (by decide) (by decide) (by decide)
  have h2 := C7_stop_escalation.2.2.1 stopEnvEscalate [(7, 100)] 7
    (by decide) h1
  have h3 := C7_stop_escalation.2.2.2.2 stopEnvEscalate [(7, 100)] 7
    (by decide) (by decide)
  exact ⟨h1, h2, h3⟩

/-- C8: at every reachable point in time the claimed property holds,
for a stark reason: the staged supervisor can never create a table
entry — the insertion at line 148 sits behind the unconditional
line-53/57 raise — and stop/cleanup only remove entries, so from the
initial empty dict (line 14) the table is empty at every reachable
state; no workspace ever has a live entry, and for any two distinct
workspaces with live entries the assigned ports (vacuously)
differ. -/
theorem C8_table_stays_empty :
    (∀ t, ReachableTable t → t = []) ∧
    (∀ (t : Table) (poll_is_none : Nat → Bool) (w : Nat),
      ReachableTable t →
      is_process_running poll_is_none t w = false) ∧
    (∀ (t : Table) (ports : Nat → Nat) (poll_is_none : Nat → Bool)
      (w1 w2 : Nat),
      ReachableTable t → w1 ≠ w2 →
      is_process_running poll_is_none t w1 = true →
      is_process_running poll_is_none t w2 = true →
      ports w1 ≠ ports w2) := by
  have empty : ∀ t, ReachableTable t → t = [] := by
    intro t h
    induction h with
    | init => rfl
    | step_start t env w _ ih =>
        rw [ih]
        rcases start_procs_cases env [] w with heq | heq
        · rw [heq]
        · rw [heq]
          rfl
    | step_stop t env wsid _ ih =>
        rw [ih]
        rcases stop_procs_cases env [] wsid with heq | heq
        · rw [heq]
        · rw [heq]
          rfl
    | step_cleanup t poll_is_none _ ih =>
        rw [ih]
        rfl
  have nolive : ∀ (t : Table) (poll_is_none : Nat → Bool) (w : Nat),
      ReachableTable t →
      is_process_running poll_is_none t w = false := by
    intro t poll_is_none w h
    rw [empty t h]
    rfl
  refine ⟨empty, nolive, ?_⟩
  intro t ports poll_is_none w1 w2 h _ hl1 _
  rw [nolive t poll_is_none w1 h] at hl1
  exact absurd hl1 (by simp)

/-- C8 witness: the table reached by one start step from the initial
state is empty and holds no live entry. -/
theorem C8_table_stays_empty_witness :
    (start_jupyter_lab envTolerant [] wsFresh).procs = [] ∧
    is_process_running (fun _ => true)
      (start_jupyter_lab envTolerant [] wsFresh).procs 7 = false := by
  have hr : ReachableTable
      (start_jupyter_lab envTolerant [] wsFresh).procs :=
    ReachableTable.step_start [] envTolerant wsFresh
      ReachableTable.init
  exact ⟨C8_table_stays_empty.1 _ hr,
    C8_table_stays_empty.2.1 _ (fun _ => true) 7 hr⟩

end JupyterSupervisor